import Mathlib

/-!
# Verification of the nix-data-generator refresh pipeline

Shallow embedding of `src/main.rs` (the `downloaddb` pipeline): the JSON
data model with its serde-style shape-tolerant decoders, the per-package
meta-row construction, and the whole fetch/check/rebuild pipeline as an
explicit state-passing function over a world model (network responses,
filesystem state, subprocess behaviours), recording an event log and a
trace of the primary database states.
-/

/-- A JSON value (`serde_json::Value`): objects keep field order, as serde
sees them. -/
inductive Json where
  | null : Json
  | bool : Bool → Json
  | num : Int → Json
  | str : String → Json
  | arr : List Json → Json
  | obj : List (String × Json) → Json

/-- `enum StrOrVec { Single(String), List(Vec<String>) }`. -/
inductive StrOrVec where
  | single : String → StrOrVec
  | list : List String → StrOrVec
  deriving DecidableEq, Repr

/-- `struct License` (all four fields `Option`al; serde renames
`fullname ↦ fullName`, `spdxid ↦ spdxId`). -/
structure License where
  free : Option Bool
  fullname : Option String
  spdxid : Option String
  url : Option String
  deriving DecidableEq, Repr

/-- `enum LicenseEnum` — untagged union over five recognized shapes. -/
inductive LicenseEnum where
  | single : License → LicenseEnum
  | list : List License → LicenseEnum
  | singleStr : String → LicenseEnum
  | vecStr : List String → LicenseEnum
  | mixed : List LicenseEnum → LicenseEnum

/-- `enum Platform` — untagged union with an `Unknown(Value)` catch-all arm. -/
inductive Platform where
  | single : String → Platform
  | list : List String → Platform
  | listList : List (List String) → Platform
  | unknown : Json → Platform

/-- Decode a `Vec<String>`: an array all of whose elements are strings. -/
def decodeStringList : Json → Option (List String)
  | .arr xs => xs.mapM fun x => match x with
      | .str s => some s
      | _ => none
  | _ => none

/-- Decode a `Vec<Vec<String>>`. -/
def decodeStringListList : Json → Option (List (List String))
  | .arr xs => xs.mapM decodeStringList
  | _ => none

/-- serde untagged decode of `StrOrVec`: try `Single(String)` then
`List(Vec<String>)`. -/
def StrOrVec.decode (j : Json) : Option StrOrVec :=
  match j with
  | .str s => some (.single s)
  | _ => (decodeStringList j).map .list

/-- serde untagged decode of `Platform`: try `Single`, `List`, `ListList`,
and fall back to `Unknown(Value)`, which matches any JSON value, so the
decode is total and never fails. -/
def Platform.decode (j : Json) : Platform :=
  match j with
  | .str s => .single s
  | _ =>
    match decodeStringList j with
    | some xs => .list xs
    | none =>
      match decodeStringListList j with
      | some xs => .listList xs
      | none => .unknown j

/-- serde encode of `Platform` (untagged: the payload itself). -/
def Platform.encode : Platform → Json
  | .single s => .str s
  | .list xs => .arr (xs.map .str)
  | .listList xs => .arr (xs.map fun ys => .arr (ys.map .str))
  | .unknown v => v

/-- Decode an `Option<bool>` struct field value: JSON `null` ⇒ `None`,
a boolean ⇒ `Some`, anything else is a type error. -/
def decodeOptBool : Json → Option (Option Bool)
  | .null => some none
  | .bool b => some (some b)
  | _ => none

/-- Decode an `Option<String>` struct field value. -/
def decodeOptString : Json → Option (Option String)
  | .null => some none
  | .str s => some (some s)
  | _ => none

/-- serde struct-field access: an absent `Option` field defaults to `None`;
a present field must decode at its declared type. -/
def decodeField {α : Type} (dec : Json → Option α) (dflt : α)
    (fields : List (String × Json)) (k : String) : Option α :=
  match fields.lookup k with
  | none => some dflt
  | some v => dec v

/-- serde decode of `struct License` from a JSON value: accepts any object,
ignoring unrecognized fields; each recognized field must type-check. -/
def License.decode (j : Json) : Option License :=
  match j with
  | .obj fs => do
      let free ← decodeField decodeOptBool none fs "free"
      let fullname ← decodeField decodeOptString none fs "fullName"
      let spdxid ← decodeField decodeOptString none fs "spdxId"
      let url ← decodeField decodeOptString none fs "url"
      some ⟨free, fullname, spdxid, url⟩
  | _ => none

/-- serde encode of `struct License`: fields in declaration order, absent
`Option` fields serialized as `null`. -/
def License.encode (l : License) : Json :=
  .obj [("free", match l.free with | some b => .bool b | none => .null),
        ("fullName", match l.fullname with | some s => .str s | none => .null),
        ("spdxId", match l.spdxid with | some s => .str s | none => .null),
        ("url", match l.url with | some s => .str s | none => .null)]

mutual

/-- serde untagged decode of `LicenseEnum`: try `Single(License)`,
`List(Vec<License>)`, `SingleStr(String)`, `VecStr(Vec<String>)`,
`Mixed(Vec<LicenseEnum>)` in declaration order, first success wins. -/
def LicenseEnum.decode : Json → Option LicenseEnum
  | .obj fs => (License.decode (.obj fs)).map LicenseEnum.single
  | .str s => some (.singleStr s)
  | .arr xs =>
    match xs.mapM License.decode with
    | some ls => some (.list ls)
    | none =>
      match xs.mapM (fun x => match x with | .str s => some s | _ => none) with
      | some ss => some (.vecStr ss)
      | none => (LicenseEnum.decodeList xs).map .mixed
  | _ => none

/-- Element-wise decode used for the recursive `Mixed` arm. -/
def LicenseEnum.decodeList : List Json → Option (List LicenseEnum)
  | [] => some []
  | x :: xs =>
    match LicenseEnum.decode x with
    | none => none
    | some l =>
      match LicenseEnum.decodeList xs with
      | none => none
      | some ls => some (l :: ls)

end

mutual

/-- serde encode of `LicenseEnum` (untagged: the payload itself). -/
def LicenseEnum.encode : LicenseEnum → Json
  | .single l => l.encode
  | .list ls => .arr (ls.map License.encode)
  | .singleStr s => .str s
  | .vecStr ss => .arr (ss.map .str)
  | .mixed ls => .arr (LicenseEnum.encodeList ls)

/-- Element-wise encode used for the recursive `Mixed` arm. -/
def LicenseEnum.encodeList : List LicenseEnum → List Json
  | [] => []
  | l :: ls => LicenseEnum.encode l :: LicenseEnum.encodeList ls

end

/-- `struct Meta` — the decoded per-package metadata (field for field). -/
structure Meta where
  broken : Option Bool
  insecure : Option Bool
  unsupported : Option Bool
  unfree : Option Bool
  description : Option String
  longdescription : Option String
  homepage : Option StrOrVec
  maintainers : Option Json
  position : Option String
  license : Option LicenseEnum
  platforms : Option Platform

/-- `struct NixosPkg` — one decoded package record. -/
structure NixosPkg where
  pname : String
  version : String
  system : String
  meta : Meta

/-- The decoded manifest: the attribute → package map, as an association
list (`packages` field of `NixosPkgList`). -/
def Manifest : Type := List (String × NixosPkg)

/-- One row of the `pkgs` table: `(attribute, system, pname, version)`,
in the tuple order serialized to csv. -/
def PkgRow : Type := String × String × String × String

/-- One row of the secondary versions table: `(attribute, pname, version)`. -/
def VerRow : Type := String × String × String

/-- `if let Some(x) = flag { if x { 1 } else { 0 } } else { 0 }`. -/
def flagToInt : Option Bool → Nat
  | some x => if x then 1 else 0
  | none => 0

/-- One row of the `meta` table, in the tuple order serialized to csv.
Serialized-json columns are kept as `Option Json` (the value whose
`serde_json::to_string` rendering is stored; `to_string` on these types
cannot fail, so the `.ok()` projection is the identity). -/
structure MetaRow where
  attr : String
  broken : Nat
  insecure : Nat
  unsupported : Nat
  unfree : Nat
  description : Option String
  longdescription : Option String
  homepage : Option String
  maintainers : Option Json
  position : Option String
  license : Option Json
  platforms : Option Json

/-- The meta-table row built for one package (the tuple passed to
`metawtr.serialize` in `downloaddb`). -/
def metaRowOf (attr : String) (m : Meta) : MetaRow where
  attr := attr
  broken := flagToInt m.broken
  insecure := flagToInt m.insecure
  unsupported := flagToInt m.unsupported
  unfree := flagToInt m.unfree
  description := m.description
  longdescription := m.longdescription
  homepage :=
    match m.homepage with
    | some (.list xs) => xs.head?
    | some (.single s) => some s
    | none => none
  maintainers := m.maintainers
  position := m.position
  license := m.license.map LicenseEnum.encode
  platforms :=
    match m.platforms with
    | some (.unknown _) => none
    | some p => some p.encode
    | none => none

/-- The `pkgs` rows bulk-loaded for a manifest. -/
def pkgsRowsOf (m : Manifest) : List PkgRow :=
  m.map fun kp => (kp.1, kp.2.system, kp.2.pname, kp.2.version)

/-- The `meta` rows bulk-loaded for a manifest. -/
def metaRowsOf (m : Manifest) : List MetaRow :=
  m.map fun kp => metaRowOf kp.1 kp.2.meta

/-- The secondary versions-table rows bulk-loaded for a manifest. -/
def verRowsOf (m : Manifest) : List VerRow :=
  m.map fun kp => (kp.1, kp.2.pname, kp.2.version)

/-! ## The pipeline world model -/

/-- The outcome of one HTTP GET as `downloaddb` observes it: either a
transport-level error (the `?` on the request itself), or a response with
a status (`is_success`) and the redirect-resolved final URL's path
segments. -/
inductive NetResult where
  | failed : NetResult
  | resp : Bool → List String → NetResult

/-- Behaviour of one spawned `sqlite3 -csv <db> ".import '|cat -' <table>"`
subprocess. `spawn()?`, `write_all(...)?` and `wait()?` can each fail with
an I/O error; otherwise the subprocess runs and exits with some status.
The exit status itself is discarded by the code (`let _status = cmd.wait()?`). -/
inductive ImportBehavior where
  | spawnErr : ImportBehavior
  | writeErr : ImportBehavior
  | waitErr : ImportBehavior
  | exits : Bool → ImportBehavior

/-- The error that aborts a run (each `?`/`return Err` site). -/
inductive Err where
  | netError : Err
  | noSegments : Err
  | resolutionFailed : Err
  | fetchFailed : Err
  | loadFailed : Err
  | spawnError : Err
  | writeError : Err
  | waitError : Err
  deriving DecidableEq, Repr

/-- How a run ends: `Ok(())`, `Err(e)`, or a panic (the
`serde_json::from_reader(..).expect(..)` on manifest decode failure). -/
inductive Outcome where
  | ok : Outcome
  | err : Err → Outcome
  | panicked : Outcome
  deriving DecidableEq, Repr

/-- A DDL statement, identified by the name it creates. -/
inductive DdlOp where
  | table : String → DdlOp
  | index : String → DdlOp
  deriving DecidableEq, Repr

/-- An observable I/O action of the run. -/
inductive Event where
  | netGet : String → Event
  | createDir : Event
  | dbRemove : String → Event
  | dbCreate : String → Event
  | sqlExec : String → DdlOp → Event
  | spawnImport : String → String → Event
  | markerWrite : String → Event
  deriving DecidableEq, Repr

/-- The state of one SQLite database file: created tables and indexes and
the bulk-loaded rows of each table. -/
structure Db where
  tables : List String
  indexes : List String
  pkgsRows : List PkgRow
  metaRows : List MetaRow
  verRows : List VerRow

/-- A freshly created database file. -/
def emptyDb : Db := ⟨[], [], [], [], []⟩

/-- The filesystem state the pipeline reads and writes: the source
directory, the marker file `nixpkgs.ver`, the primary database file
`nixpkgs.db` and the secondary `nixpkgs_versions.db` (each `none` when the
file does not exist). -/
structure FS where
  dirExists : Bool
  marker : Option String
  primaryDb : Option Db
  versionsDb : Option Db

/-- The run's environment: network responses, the manifest the body decodes
to, whether the serde decode succeeds (it panics otherwise), and the
behaviour of the n-th spawned sqlite3 import (0 = pkgs, 1 = meta,
2 = versions). -/
structure Env where
  net : String → NetResult
  manifest : Manifest
  parseOk : Bool
  importBehavior : Nat → ImportBehavior

/-- Result of a run: outcome, final filesystem state, chronological event
log, and the chronological trace of states of the primary database file
(every value it takes during the run). -/
structure RunResult where
  outcome : Outcome
  fs : FS
  events : List Event
  dbTrace : List (Option Db)

/-- `https://channels.nixos.org/<c>`. -/
def channelsUrl (c : String) : String := "https://channels.nixos.org/" ++ c

/-- `https://channels.nixos.org/<c>/packages.json.br`. -/
def manifestUrl (c : String) : String := channelsUrl c ++ "/packages.json.br"

/-- `<sourcedir>/nixpkgs.db`. -/
def dbFile (srcdir : String) : String := srcdir ++ "/nixpkgs.db"

/-- `<sourcedir>/nixpkgs.ver`. -/
def verFile (srcdir : String) : String := srcdir ++ "/nixpkgs.ver"

/-- `<sourcedir>/nixpkgs_versions.db`. -/
def versionsDbFile (srcdir : String) : String := srcdir ++ "/nixpkgs_versions.db"

/-- `str::strip_prefix(p).unwrap_or(s)`: remove the prefix when present
(modelled on the character list underlying the string). -/
def stripPrefixOr (p s : String) : String :=
  if p.toList.isPrefixOf s.toList then ⟨s.toList.drop p.toList.length⟩ else s

/-- Lines 142-147: strip a `"nixos-"` prefix, then a `"nixpkgs-"` prefix,
to obtain the canonical version string `latestpkgsver`. -/
def stripVer (s : String) : String :=
  stripPrefixOr "nixpkgs-" (stripPrefixOr "nixos-" s)

/-- Lines 116-139: resolve the latest nixpkgs version. One GET against
`channels.nixos.org/<version>`; if the response status is a success the
resolved version is the final URL's last path segment; on a non-success
status a single fallback GET against `channels.nixos.org/nixos-unstable`
is tried and the active channel becomes `"unstable"`; a non-success status
there too is `Err("Could not find latest nixpkgs version")`. A
transport-level failure of either GET propagates through `?` immediately,
without any fallback. Returns the probe events and either the error or
`(latestnixpkgsver, active channel)`. -/
def resolveVersion (net : String → NetResult) (version : String) :
    List Event × Except Err (String × String) :=
  match net (channelsUrl version) with
  | .failed => ([.netGet (channelsUrl version)], .error .netError)
  | .resp true segs =>
    match segs.getLast? with
    | none => ([.netGet (channelsUrl version)], .error .noSegments)
    | some s => ([.netGet (channelsUrl version)], .ok (s, version))
  | .resp false _ =>
    match net (channelsUrl "nixos-unstable") with
    | .failed =>
      ([.netGet (channelsUrl version), .netGet (channelsUrl "nixos-unstable")],
       .error .netError)
    | .resp true segs =>
      match segs.getLast? with
      | none =>
        ([.netGet (channelsUrl version), .netGet (channelsUrl "nixos-unstable")],
         .error .noSegments)
      | some s =>
        ([.netGet (channelsUrl version), .netGet (channelsUrl "nixos-unstable")],
         .ok (s, "unstable"))
    | .resp false _ =>
      ([.netGet (channelsUrl version), .netGet (channelsUrl "nixos-unstable")],
       .error .resolutionFailed)

/-- `CREATE TABLE "t" (...)`: fails when the table already exists. -/
def createTable (d : Db) (t : String) : Except Err Db :=
  if d.tables.contains t then .error .loadFailed
  else .ok { d with tables := d.tables ++ [t] }

/-- `CREATE [UNIQUE] INDEX "i" ON ...`: fails when the index already
exists. -/
def createIndex (d : Db) (i : String) : Except Err Db :=
  if d.indexes.contains i then .error .loadFailed
  else .ok { d with indexes := d.indexes ++ [i] }

/-- Execute one DDL statement. -/
def execDdl (d : Db) : DdlOp → Except Err Db
  | .table t => createTable d t
  | .index i => createIndex d i

/-- Execute DDL statements in order, stopping at the first error; returns
the events for the attempted statements, the database state reached, and
the error if any. -/
def execDdlList (file : String) (d : Db) : List DdlOp → List Event × Db × Option Err
  | [] => ([], d, none)
  | op :: ops =>
    match execDdl d op with
    | .error e => ([.sqlExec file op], d, some e)
    | .ok d' =>
      let r := execDdlList file d' ops
      (.sqlExec file op :: r.1, r.2)

/-- The primary database's schema statements, in program order
(lines 182-237). -/
def primaryDdl : List DdlOp :=
  [.table "pkgs", .table "meta",
   .index "attributes", .index "metaattributes", .index "pnames"]

/-- The versions database's schema statements, in program order
(lines 351-376). -/
def versionsDdl : List DdlOp :=
  [.table "pkgs", .index "attributes", .index "pnames"]

/-- `Sqlite::create_database`: creates an empty database file when the
file is absent; an existing file is left exactly as it is. -/
def createDatabase : Option Db → Db
  | none => emptyDb
  | some d => d

/-- One sqlite3 import subprocess: I/O errors on spawn/write/wait abort the
run; otherwise `.ok exitOk` — the exit status, which the caller discards. -/
def runImport : ImportBehavior → Except Err Bool
  | .spawnErr => .error .spawnError
  | .writeErr => .error .writeError
  | .waitErr => .error .waitError
  | .exits ok => .ok ok

/-- Lines 347-394 of `downloaddb`: build `nixpkgs_versions.db` and commit
the marker. `Sqlite::create_database` is issued WITHOUT any prior delete
of an existing versions database, then the schema DDL (which fails when
the table already exists), then the third sqlite3 import, then — only
after everything above — the marker file write. -/
def buildVersions (env : Env) (fs6 : FS) (canonical srcdir : String)
    (evs : List Event) (trace : List (Option Db)) : RunResult :=
  -- lines 347-350: versions database — created without any prior delete
  let dv0 := createDatabase fs6.versionsDb
  let fs7 := { fs6 with versionsDb := some dv0 }
  let evs7 := evs ++ [.dbCreate (versionsDbFile srcdir)]
  match execDdlList (versionsDbFile srcdir) dv0 versionsDdl with
  | (dvevs, dv1, some e) =>
    ⟨.err e, { fs7 with versionsDb := some dv1 }, evs7 ++ dvevs, trace⟩
  | (dvevs, dv1, none) =>
  let fs8 := { fs7 with versionsDb := some dv1 }
  let evs8 := evs7 ++ dvevs
  -- lines 378-391: csv rows for versions, third sqlite3 import
  let evs9 := evs8 ++ [.spawnImport (versionsDbFile srcdir) "pkgs"]
  match runImport (env.importBehavior 2) with
  | .error e => ⟨.err e, fs8, evs9, trace⟩
  | .ok ok2 =>
  let dv2 := if ok2 then { dv1 with verRows := verRowsOf env.manifest } else dv1
  let fs9 := { fs8 with versionsDb := some dv2 }
  -- lines 393-394: write the canonical version string to nixpkgs.ver
  ⟨.ok, { fs9 with marker := some canonical }, evs9 ++ [.markerWrite canonical], trace⟩

/-- Lines 172-394 of `downloaddb`: everything after a successful manifest
fetch. Deletes an existing `nixpkgs.db`, creates and loads the fresh
primary database, then builds the versions database and commits the
marker (`buildVersions`). An import subprocess that runs but exits
unsuccessfully is modelled as loading no rows; the code discards its exit
status and continues. -/
def buildDbs (env : Env) (fs1 : FS) (canonical srcdir : String)
    (evs : List Event) (trace : List (Option Db)) : RunResult :=
  -- Loader step 1 (lines 176-178): delete an existing nixpkgs.db
  let removed := fs1.primaryDb.isSome
  let fs2 := if removed then { fs1 with primaryDb := none } else fs1
  let evs2 := if removed then evs ++ [.dbRemove (dbFile srcdir)] else evs
  let trace2 := if removed then trace ++ [none] else trace
  -- step 2 (line 180): Sqlite::create_database
  let d0 := createDatabase fs2.primaryDb
  let fs3 := { fs2 with primaryDb := some d0 }
  let evs3 := evs2 ++ [.dbCreate (dbFile srcdir)]
  let trace3 := trace2 ++ [some d0]
  -- steps 3-4 (lines 182-237): schema DDL
  match execDdlList (dbFile srcdir) d0 primaryDdl with
  | (devs, d1, some e) =>
    ⟨.err e, { fs3 with primaryDb := some d1 }, evs3 ++ devs, trace3 ++ [some d1]⟩
  | (devs, d1, none) =>
  let fs4 := { fs3 with primaryDb := some d1 }
  let evs4 := evs3 ++ devs
  let trace4 := trace3 ++ [some d1]
  -- lines 239-241: serde_json::from_reader(..).expect(..): panic on decode failure
  if env.parseOk then
    -- lines 243-263: csv rows for pkgs, first sqlite3 import
    let evs5 := evs4 ++ [.spawnImport (dbFile srcdir) "pkgs"]
    match runImport (env.importBehavior 0) with
    | .error e => ⟨.err e, fs4, evs5, trace4⟩
    | .ok ok0 =>
    let d2 := if ok0 then { d1 with pkgsRows := pkgsRowsOf env.manifest } else d1
    let fs5 := { fs4 with primaryDb := some d2 }
    let trace5 := trace4 ++ [some d2]
    -- lines 264-344: csv rows for meta, second sqlite3 import
    let evs6 := evs5 ++ [.spawnImport (dbFile srcdir) "meta"]
    match runImport (env.importBehavior 1) with
    | .error e => ⟨.err e, fs5, evs6, trace5⟩
    | .ok ok1 =>
    let d3 := if ok1 then { d2 with metaRows := metaRowsOf env.manifest } else d2
    let fs6 := { fs5 with primaryDb := some d3 }
    let trace6 := trace5 ++ [some d3]
    buildVersions env fs6 canonical srcdir evs6 trace6
  else ⟨.panicked, fs4, evs4, trace4⟩

/-- Lines 150-155: `fs::create_dir_all` when the source directory is
absent; all other filesystem state is untouched. -/
def afterDir (fs : FS) : FS :=
  if fs.dirExists then fs else { fs with dirExists := true }

/-- Lines 115-399: the whole `downloaddb` pipeline over the world model:
version resolution, source-directory creation, staleness check, manifest
fetch, database rebuild, marker commit. -/
def run (env : Env) (fs0 : FS) (version srcdir : String) : RunResult :=
  match resolveVersion env.net version with
  | (evs, .error e) => ⟨.err e, fs0, evs, [fs0.primaryDb]⟩
  | (evs, .ok la) =>
    let canonical := stripVer la.1
    -- lines 150-155: create the source directory when absent
    let fs1 := afterDir fs0
    let evs1 := if fs0.dirExists then evs else evs ++ [.createDir]
    -- lines 157-163: staleness check on nixpkgs.ver and nixpkgs.db
    if fs1.marker = some canonical ∧ fs1.primaryDb.isSome = true then
      ⟨.ok, fs1, evs1, [fs1.primaryDb]⟩
    else
      -- lines 165-171: fetch packages.json.br over the active channel
      let evs2 := evs1 ++ [.netGet (manifestUrl la.2)]
      match env.net (manifestUrl la.2) with
      | .failed => ⟨.err .netError, fs1, evs2, [fs1.primaryDb]⟩
      | .resp false _ => ⟨.err .fetchFailed, fs1, evs2, [fs1.primaryDb]⟩
      | .resp true _ => buildDbs env fs1 canonical srcdir evs2 [fs1.primaryDb]

/-! ## Derived notions used by the statements -/

/-- A `Meta` with every field absent. -/
def emptyMeta : Meta := ⟨none, none, none, none, none, none, none, none, none, none, none⟩

/-- Whether a JSON object has a field of the given name. -/
def Json.hasKey : Json → String → Bool
  | .obj fs, k => (fs.lookup k).isSome
  | _, _ => false

/-- A JSON value that is a bare string or an array of strings (the license
shapes whose serde encoding is the identity). -/
def Json.isStrOrStrList : Json → Bool
  | .str _ => true
  | .arr xs => xs.all fun x => match x with | .str _ => true | _ => false
  | _ => false

/-- A JSON value matching one of the three recognized `Platform` shapes:
single string, list of strings, list of lists of strings. -/
def Json.isRecognizedPlatform (j : Json) : Bool :=
  (match j with | .str _ => true | _ => false) ||
  (decodeStringList j).isSome || (decodeStringListList j).isSome

/-- The primary database right after its schema DDL, before any bulk
load. -/
def primarySchemaDb : Db :=
  ⟨["pkgs", "meta"], ["attributes", "metaattributes", "pnames"], [], [], []⟩

/-- The fully built primary database for a manifest: complete schema and
both tables bulk-loaded. -/
def completePrimaryDb (m : Manifest) : Db :=
  ⟨["pkgs", "meta"], ["attributes", "metaattributes", "pnames"],
   pkgsRowsOf m, metaRowsOf m, []⟩

/-- The fully built versions database for a manifest. -/
def completeVersionsDb (m : Manifest) : Db :=
  ⟨["pkgs"], ["attributes", "pnames"], [], [], verRowsOf m⟩

/-- Every row of the (possibly absent) database file comes from the given
manifest: no data from any other snapshot is present. -/
def fromManifest (m : Manifest) : Option Db → Prop
  | none => True
  | some d => d.pkgsRows ⊆ pkgsRowsOf m ∧ d.metaRows ⊆ metaRowsOf m ∧
      d.verRows ⊆ verRowsOf m

/-! ## Concrete worlds used by witnesses and counterexamples -/

/-- A network where the `nixos-24.05` channel probe resolves to build
`nixos-24.05.1234` and the manifest download succeeds. -/
def happyNet : String → NetResult := fun url =>
  if url = channelsUrl "nixos-24.05" then .resp true ["nixos-24.05.1234"]
  else if url = manifestUrl "nixos-24.05" then .resp true []
  else .failed

/-- A sample package with all meta fields absent. -/
def fooPkg : NixosPkg := ⟨"foo", "1.0", "x86_64-linux", emptyMeta⟩

/-- A one-package manifest. -/
def fooManifest : Manifest := [("foo", fooPkg)]

/-- A second sample package, standing in for the prior snapshot's data. -/
def barPkg : NixosPkg := ⟨"bar", "0.9", "x86_64-linux", emptyMeta⟩

/-- The prior snapshot's manifest. -/
def barManifest : Manifest := [("bar", barPkg)]

/-- A fully successful environment: resolution, fetch, decode and all three
imports succeed. -/
def happyEnv : Env := ⟨happyNet, fooManifest, true, fun _ => .exits true⟩

/-- An empty source directory. -/
def fsEmpty : FS := ⟨false, none, none, none⟩

/-- The environment for the C1 counterexample: identical to `happyEnv`
except that the first sqlite3 import subprocess (the `pkgs` bulk load)
runs but exits unsuccessfully. -/
def c1Env : Env := ⟨happyNet, fooManifest, true,
  fun n => if n = 0 then .exits false else .exits true⟩

/-- Filesystem state for the C2 counterexample: a complete prior snapshot
(marker `"old"`, complete prior primary database, no versions database). -/
def c2FS : FS := ⟨true, some "old", some (completePrimaryDb barManifest), none⟩

/-- A network where every GET fails at the transport level. -/
def downNet : String → NetResult := fun _ => .failed

/-- Filesystem state for the C10 failing input: the state a prior
successful run leaves behind — stale marker, complete prior primary
database, and a versions database whose `pkgs` table already exists. -/
def c10FS : FS := ⟨true, some "old", some (completePrimaryDb barManifest),
  some (completeVersionsDb barManifest)⟩

/-- The C5 source value: a license object carrying an unrecognized field
`shortName` alongside the recognized `fullName`. -/
def c5Json : Json := .obj [("shortName", .str "mit"), ("fullName", .str "MIT License")]

/-- What `c5Json` decodes to: the four recognized fields only. -/
def c5Lic : LicenseEnum := .single ⟨none, some "MIT License", none, none⟩

/-- An environment whose every GET fails at the transport level. -/
def downEnv : Env := ⟨downNet, [], true, fun _ => .exits true⟩

/-- A network where the `nixos-old` channel probe is answered with a
non-success status and the fallback probe succeeds. -/
def fallbackNet : String → NetResult := fun url =>
  if url = channelsUrl "nixos-old" then .resp false []
  else if url = channelsUrl "nixos-unstable" then .resp true ["nixos-unstable-555"]
  else if url = manifestUrl "unstable" then .resp true []
  else .failed

/-- A network where resolution succeeds but the manifest download is
answered with a non-success status. -/
def fetchFailNet : String → NetResult := fun url =>
  if url = channelsUrl "nixos-24.05" then .resp true ["nixos-24.05.1234"]
  else if url = manifestUrl "nixos-24.05" then .resp false []
  else .failed

/-- The environment for the C3 witness. -/
def fetchFailEnv : Env := ⟨fetchFailNet, [], true, fun _ => .exits true⟩

/-- The filesystem state a fully successful run for `fooManifest` leaves:
marker current, both databases complete. -/
def fsCurrent : FS :=
  ⟨true, some "24.05.1234", some (completePrimaryDb fooManifest),
   some (completeVersionsDb fooManifest)⟩

/-! ## Normalizer-level claims -/

/-- Helper: extracting the strings of an all-string JSON array. -/
theorem mapM_str_eq_some (xs : List Json)
    (h : (xs.all fun x => match x with | .str _ => true | _ => false) = true) :
    ∃ ss : List String,
      (xs.mapM fun x => match x with | .str s => some s | _ => none) = some ss ∧
      ss.map Json.str = xs := by
  induction xs with
  | nil => exact ⟨[], rfl, rfl⟩
  | cons a l ih =>
    simp only [List.all_cons, Bool.and_eq_true] at h
    obtain ⟨ha, hl⟩ := h
    obtain ⟨ss, hss, hmap⟩ := ih hl
    obtain ⟨s, rfl⟩ : ∃ s, a = .str s := by cases a <;> simp_all
    exact ⟨s :: ss, by rw [List.mapM_cons, hss]; rfl, by simp [hmap]⟩

/-- Helper: `License.decode` rejects any non-object, in particular strings. -/
theorem License.decode_str (s : String) : License.decode (.str s) = none := rfl

/-- C7: the homepage first-element rule: a non-empty list of strings is
stored as its first element, a single string is stored as itself, and an
absent homepage is stored as absent. -/
theorem c7_homepage_first_element :
    (∀ (attr : String) (m : Meta) (x : String) (xs : List String),
      (metaRowOf attr { m with homepage := some (.list (x :: xs)) }).homepage = some x) ∧
    (∀ (attr : String) (m : Meta) (s : String),
      (metaRowOf attr { m with homepage := some (.single s) }).homepage = some s) ∧
    (∀ (attr : String) (m : Meta),
      (metaRowOf attr { m with homepage := none }).homepage = none) :=
  ⟨fun _ _ _ _ => rfl, fun _ _ _ => rfl, fun _ _ => rfl⟩

/-- C8: each of the four tri-state flags is stored as 1 when present and
true, and as 0 when present and false or absent; the row construction is
total, so an absent flag never causes an error. -/
theorem c8_tristate_flags :
    (∀ (attr : String) (m : Meta),
      (metaRowOf attr { m with broken := some true }).broken = 1 ∧
      (metaRowOf attr { m with broken := some false }).broken = 0 ∧
      (metaRowOf attr { m with broken := none }).broken = 0) ∧
    (∀ (attr : String) (m : Meta),
      (metaRowOf attr { m with insecure := some true }).insecure = 1 ∧
      (metaRowOf attr { m with insecure := some false }).insecure = 0 ∧
      (metaRowOf attr { m with insecure := none }).insecure = 0) ∧
    (∀ (attr : String) (m : Meta),
      (metaRowOf attr { m with unsupported := some true }).unsupported = 1 ∧
      (metaRowOf attr { m with unsupported := some false }).unsupported = 0 ∧
      (metaRowOf attr { m with unsupported := none }).unsupported = 0) ∧
    (∀ (attr : String) (m : Meta),
      (metaRowOf attr { m with unfree := some true }).unfree = 1 ∧
      (metaRowOf attr { m with unfree := some false }).unfree = 0 ∧
      (metaRowOf attr { m with unfree := none }).unfree = 0) :=
  ⟨fun _ _ => ⟨rfl, rfl, rfl⟩, fun _ _ => ⟨rfl, rfl, rfl⟩,
   fun _ _ => ⟨rfl, rfl, rfl⟩, fun _ _ => ⟨rfl, rfl, rfl⟩⟩

/-- C6: a `platforms` value of unrecognized shape decodes (totally, without
failure) to the `Unknown` arm, and the stored platforms column is then
absent/null. -/
theorem c6_unrecognized_platform_stored_null (attr : String) (m : Meta) (j : Json)
    (h : j.isRecognizedPlatform = false) :
    Platform.decode j = .unknown j ∧
    (metaRowOf attr { m with platforms := some (Platform.decode j) }).platforms = none := by
  simp only [Json.isRecognizedPlatform, Bool.or_eq_false_iff] at h
  obtain ⟨⟨h1, h2⟩, h3⟩ := h
  have h2' : decodeStringList j = none := by
    cases hds : decodeStringList j with
    | none => rfl
    | some xs => rw [hds] at h2; simp at h2
  have h3' : decodeStringListList j = none := by
    cases hds : decodeStringListList j with
    | none => rfl
    | some xs => rw [hds] at h3; simp at h3
  have hdec : Platform.decode j = .unknown j := by
    cases j <;> simp_all [Platform.decode]
  refine ⟨hdec, ?_⟩
  rw [hdec]
  rfl

/-- C6 witness: a bare number is an unrecognized platforms shape and is
stored as absent. -/
theorem c6_witness :
    (Json.num 5).isRecognizedPlatform = false ∧
    Platform.decode (.num 5) = .unknown (.num 5) ∧
    (metaRowOf "a" { emptyMeta with platforms := some (Platform.decode (.num 5)) }).platforms
      = none :=
  ⟨rfl, (c6_unrecognized_platform_stored_null "a" emptyMeta (.num 5) rfl).1,
       (c6_unrecognized_platform_stored_null "a" emptyMeta (.num 5) rfl).2⟩

/-- C5 counterexample: a recognized license shape (a single license
object) whose stored serialization is NOT the source value: the
unrecognized field `shortName` is dropped and absent recognized fields are
re-encoded as explicit `null`s, so re-serializing the decoded value does
not yield the source value. -/
theorem c5_counterexample :
    LicenseEnum.decode c5Json = some c5Lic ∧
    (metaRowOf "a" { emptyMeta with license := some c5Lic }).license = some c5Lic.encode ∧
    c5Json.hasKey "shortName" = true ∧
    c5Lic.encode.hasKey "shortName" = false ∧
    c5Lic.encode ≠ c5Json := by
  refine ⟨rfl, rfl, rfl, rfl, fun h => ?_⟩
  have h2 : c5Lic.encode.hasKey "shortName" = c5Json.hasKey "shortName" := by rw [h]
  rw [show c5Lic.encode.hasKey "shortName" = false from rfl,
      show c5Json.hasKey "shortName" = true from rfl] at h2
  exact Bool.noConfusion h2

/-- C5 (amended): for license values of bare-string or list-of-strings
shape, the decoded value re-encodes to exactly the source JSON value, so
the stored license column is the source value verbatim; for shapes
containing license objects this fails (see the counterexample). -/
theorem c5_amended_verbatim_for_string_shapes
    (attr : String) (m : Meta) (j : Json) (lic : LicenseEnum)
    (hshape : j.isStrOrStrList = true)
    (hdec : LicenseEnum.decode j = some lic) :
    (metaRowOf attr { m with license := some lic }).license = some j := by
  have hrow : (metaRowOf attr { m with license := some lic }).license
      = some lic.encode := rfl
  rw [hrow]
  have henc : lic.encode = j := by
    cases j with
    | str s =>
      rw [LicenseEnum.decode] at hdec
      cases hdec
      rfl
    | arr xs =>
      cases xs with
      | nil =>
        rw [LicenseEnum.decode] at hdec
        simp only [List.mapM_nil] at hdec
        cases hdec
        rfl
      | cons a l =>
        simp only [Json.isStrOrStrList, List.all_cons, Bool.and_eq_true] at hshape
        obtain ⟨ha, hl⟩ := hshape
        obtain ⟨s, rfl⟩ : ∃ s, a = .str s := by cases a <;> simp_all
        obtain ⟨ss, hss, hmap⟩ := mapM_str_eq_some (Json.str s :: l) (by simp_all)
        rw [LicenseEnum.decode] at hdec
        rw [List.mapM_cons] at hdec
        simp only [License.decode_str, Option.none_bind] at hdec
        rw [hss] at hdec
        cases hdec
        simp only [LicenseEnum.encode]
        rw [hmap]
    | null => simp [Json.isStrOrStrList] at hshape
    | bool b => simp [Json.isStrOrStrList] at hshape
    | num n => simp [Json.isStrOrStrList] at hshape
    | obj fs => simp [Json.isStrOrStrList] at hshape
  rw [henc]

/-- C5 amended witness: a two-element list of strings round-trips
verbatim into the stored license column. -/
theorem c5_amended_witness :
    (Json.arr [.str "MIT", .str "BSD"]).isStrOrStrList = true ∧
    LicenseEnum.decode (.arr [.str "MIT", .str "BSD"]) = some (.vecStr ["MIT", "BSD"]) ∧
    (metaRowOf "a" { emptyMeta with license := some (.vecStr ["MIT", "BSD"]) }).license
      = some (.arr [.str "MIT", .str "BSD"]) :=
  ⟨rfl, rfl,
   c5_amended_verbatim_for_string_shapes "a" emptyMeta (.arr [.str "MIT", .str "BSD"])
     (.vecStr ["MIT", "BSD"]) rfl rfl⟩

/-! ## Pipeline-level claims -/

/-- Creating the source directory touches no file. -/
@[simp] theorem afterDir_marker (fs : FS) : (afterDir fs).marker = fs.marker := by
  unfold afterDir; split <;> rfl

/-- Creating the source directory touches no database file. -/
@[simp] theorem afterDir_primaryDb (fs : FS) : (afterDir fs).primaryDb = fs.primaryDb := by
  unfold afterDir; split <;> rfl

/-- Creating the source directory touches no database file. -/
@[simp] theorem afterDir_versionsDb (fs : FS) : (afterDir fs).versionsDb = fs.versionsDb := by
  unfold afterDir; split <;> rfl

/-- Version resolution performs one GET, or two when the first response
has a non-success status. -/
theorem resolveVersion_events (net : String → NetResult) (version : String) :
    (resolveVersion net version).1 = [.netGet (channelsUrl version)] ∨
    (resolveVersion net version).1 =
      [.netGet (channelsUrl version), .netGet (channelsUrl "nixos-unstable")] := by
  unfold resolveVersion
  split
  · exact .inl rfl
  · split
    · exact .inl rfl
    · exact .inl rfl
  · split
    · exact .inr rfl
    · split
      · exact .inr rfl
      · exact .inr rfl
    · exact .inr rfl

/-- C4: when the marker file's content equals the canonical version string
and the database file exists, the run ends successfully right after the
staleness check: the filesystem is untouched and the only events are the
resolution probes — no manifest fetch, no database deletion or rebuild, no
marker write. -/
theorem c4_staleness_short_circuit
    (env : Env) (fs0 : FS) (version srcdir : String)
    (evs : List Event) (latest active : String)
    (hres : resolveVersion env.net version = (evs, .ok (latest, active)))
    (hdir : fs0.dirExists = true)
    (hmark : fs0.marker = some (stripVer latest))
    (hdb : fs0.primaryDb.isSome = true) :
    (run env fs0 version srcdir).outcome = .ok ∧
    (run env fs0 version srcdir).fs = fs0 ∧
    (run env fs0 version srcdir).events = evs ∧
    (∀ e ∈ evs, ∃ u, e = Event.netGet u) := by
  have hafter : afterDir fs0 = fs0 := by unfold afterDir; rw [hdir]; rfl
  have hev := resolveVersion_events env.net version
  rw [hres] at hev
  unfold run
  rw [hres, hdir]
  simp only [hafter]
  rw [if_pos ⟨hmark, hdb⟩]
  refine ⟨rfl, rfl, by simp, ?_⟩
  rcases hev with hev | hev
  · replace hev : evs = [Event.netGet (channelsUrl version)] := hev
    subst hev
    rintro e he
    rcases List.mem_singleton.1 he with rfl
    exact ⟨_, rfl⟩
  · replace hev : evs =
        [Event.netGet (channelsUrl version), Event.netGet (channelsUrl "nixos-unstable")] := hev
    subst hev
    rintro e he
    rcases List.mem_cons.1 he with rfl | he2
    · exact ⟨_, rfl⟩
    · rcases List.mem_singleton.1 he2 with rfl
      exact ⟨_, rfl⟩

/-- C4 witness: on the filesystem state a successful run leaves behind,
a second run against the same resolved version is a successful no-op whose
only event is the single resolution probe. -/
theorem c4_witness :
    fsCurrent.marker = some (stripVer "nixos-24.05.1234") ∧
    fsCurrent.primaryDb.isSome = true ∧
    (run happyEnv fsCurrent "nixos-24.05" "/src").outcome = .ok ∧
    (run happyEnv fsCurrent "nixos-24.05" "/src").fs = fsCurrent ∧
    (run happyEnv fsCurrent "nixos-24.05" "/src").events =
      [.netGet (channelsUrl "nixos-24.05")] :=
  ⟨rfl, rfl,
   (c4_staleness_short_circuit happyEnv fsCurrent "nixos-24.05" "/src"
      [.netGet (channelsUrl "nixos-24.05")] "nixos-24.05.1234" "nixos-24.05"
      rfl rfl rfl rfl).1,
   (c4_staleness_short_circuit happyEnv fsCurrent "nixos-24.05" "/src"
      [.netGet (channelsUrl "nixos-24.05")] "nixos-24.05.1234" "nixos-24.05"
      rfl rfl rfl rfl).2.1,
   (c4_staleness_short_circuit happyEnv fsCurrent "nixos-24.05" "/src"
      [.netGet (channelsUrl "nixos-24.05")] "nixos-24.05.1234" "nixos-24.05"
      rfl rfl rfl rfl).2.2.1⟩

/-- C3: a manifest-fetch response with non-success status fails the run
with the fetch error, and the marker file and both database files are left
exactly as they were. -/
theorem c3_fetch_failure_preserves_state
    (env : Env) (fs0 : FS) (version srcdir : String)
    (evs : List Event) (latest active : String) (segs : List String)
    (hres : resolveVersion env.net version = (evs, .ok (latest, active)))
    (hstale : ¬(fs0.marker = some (stripVer latest) ∧ fs0.primaryDb.isSome = true))
    (hfetch : env.net (manifestUrl active) = .resp false segs) :
    (run env fs0 version srcdir).outcome = .err .fetchFailed ∧
    (run env fs0 version srcdir).fs.marker = fs0.marker ∧
    (run env fs0 version srcdir).fs.primaryDb = fs0.primaryDb ∧
    (run env fs0 version srcdir).fs.versionsDb = fs0.versionsDb := by
  unfold run
  rw [hres]
  simp only [afterDir_marker, afterDir_primaryDb]
  rw [if_neg hstale, hfetch]
  exact ⟨rfl, by simp, by simp, by simp⟩

/-- C3 witness: with a complete prior state on disk and a manifest fetch
answered by a non-success status, the run fails and the prior marker and
databases are preserved. -/
theorem c3_witness :
    (run fetchFailEnv c10FS "nixos-24.05" "/src").outcome = .err .fetchFailed ∧
    (run fetchFailEnv c10FS "nixos-24.05" "/src").fs.marker = c10FS.marker ∧
    (run fetchFailEnv c10FS "nixos-24.05" "/src").fs.primaryDb = c10FS.primaryDb ∧
    (run fetchFailEnv c10FS "nixos-24.05" "/src").fs.versionsDb = c10FS.versionsDb :=
  c3_fetch_failure_preserves_state fetchFailEnv c10FS "nixos-24.05" "/src"
    [.netGet (channelsUrl "nixos-24.05")] "nixos-24.05.1234" "nixos-24.05" [] rfl
    (by decide) rfl

/-- C9 (amended): when the primary probe is answered with a non-success
STATUS, exactly one fallback GET against `nixos-unstable` is issued (the
event log of resolution is exactly the two probes); a non-success status
there too fails the run with the resolution error, and a success makes the
active channel — the one the manifest fetch uses — `"unstable"`. A
transport-level error on either GET propagates immediately instead (see
the counterexample). -/
theorem c9_single_fallback_on_nonsuccess_status
    (net : String → NetResult) (version : String) (segs : List String)
    (h : net (channelsUrl version) = .resp false segs) :
    (resolveVersion net version).1 =
      [.netGet (channelsUrl version), .netGet (channelsUrl "nixos-unstable")] ∧
    (∀ segs2, net (channelsUrl "nixos-unstable") = .resp false segs2 →
      (resolveVersion net version).2 = .error .resolutionFailed) ∧
    (∀ segs2 s, net (channelsUrl "nixos-unstable") = .resp true segs2 →
      segs2.getLast? = some s →
      (resolveVersion net version).2 = .ok (s, "unstable")) := by
  refine ⟨?_, ?_, ?_⟩
  · unfold resolveVersion
    rw [h]
    dsimp only
    split
    · rfl
    · split <;> rfl
    · rfl
  · intro segs2 h2
    unfold resolveVersion
    rw [h]
    dsimp only
    rw [h2]
  · intro segs2 s h2 hlast
    unfold resolveVersion
    rw [h]
    dsimp only
    rw [h2]
    dsimp only
    rw [hlast]

/-- C9 amended witness: primary probe status-fails, the single fallback
succeeds, the resolved channel is `"unstable"`. -/
theorem c9_amended_witness :
    fallbackNet (channelsUrl "nixos-old") = .resp false [] ∧
    (resolveVersion fallbackNet "nixos-old").1 =
      [.netGet (channelsUrl "nixos-old"), .netGet (channelsUrl "nixos-unstable")] ∧
    (resolveVersion fallbackNet "nixos-old").2 = .ok ("nixos-unstable-555", "unstable") :=
  ⟨rfl,
   (c9_single_fallback_on_nonsuccess_status fallbackNet "nixos-old" [] rfl).1,
   (c9_single_fallback_on_nonsuccess_status fallbackNet "nixos-old" [] rfl).2.2
     ["nixos-unstable-555"] "nixos-unstable-555" rfl rfl⟩

/-- C9 counterexample: a channel GET that does not succeed at the
transport level (a network failure) issues NO fallback GET — the run
aborts at once with the transport error, not the resolution error: the
event log shows a single GET and no probe of `nixos-unstable` was made. -/
theorem c9_counterexample_no_fallback_on_transport_error :
    resolveVersion downNet "nixos-24.05" =
      ([.netGet (channelsUrl "nixos-24.05")], .error .netError) ∧
    (run downEnv fsEmpty "nixos-24.05" "/src").events =
      [.netGet (channelsUrl "nixos-24.05")] ∧
    (run downEnv fsEmpty "nixos-24.05" "/src").outcome = .err .netError :=
  ⟨rfl, rfl, rfl⟩

/-- The marker file is written only by the final commit of a fully
successful run: in every other outcome it is untouched. -/
theorem run_marker_cases (env : Env) (fs0 : FS) (version srcdir : String) :
    (run env fs0 version srcdir).fs.marker = fs0.marker ∨
    (run env fs0 version srcdir).outcome = .ok := by
  unfold run buildDbs buildVersions
  dsimp only
  repeat' split
  all_goals first
    | (right; rfl)
    | (left; simp)

/-- C1 (amended): whenever any pipeline step fails — any error surfaced
through `?` (resolution, fetch, database creation, DDL, subprocess
spawn/write/wait I/O) or the decode panic — the marker file is not
updated, so the next run performs the full refresh again. However, a
sqlite3 import subprocess that runs and exits UNSUCCESSFULLY is not such a
failure: its exit status is discarded, the run still commits (see the
counterexample). -/
theorem c1_marker_unchanged_unless_ok
    (env : Env) (fs0 : FS) (version srcdir : String)
    (h : (run env fs0 version srcdir).outcome ≠ .ok) :
    (run env fs0 version srcdir).fs.marker = fs0.marker :=
  (run_marker_cases env fs0 version srcdir).resolve_right h

/-- C1 amended witness: a run that fails (transport error on resolution)
leaves the absent marker absent. -/
theorem c1_amended_witness :
    (run downEnv fsEmpty "nixos-24.05" "/src").outcome ≠ .ok ∧
    (run downEnv fsEmpty "nixos-24.05" "/src").fs.marker = fsEmpty.marker :=
  ⟨by decide,
   c1_marker_unchanged_unless_ok downEnv fsEmpty "nixos-24.05" "/src" (by decide)⟩

/-- C1 counterexample: the pkgs bulk-load subprocess fails — it runs and
exits unsuccessfully, importing nothing — yet the run ends `Ok` and the
marker IS updated, because `let _status = cmd.wait()?` discards the exit
status. The resulting state is a current-looking marker over a primary
database whose pkgs table is empty while the manifest is not. -/
theorem c1_counterexample :
    c1Env.importBehavior 0 = .exits false ∧
    (run c1Env fsEmpty "nixos-24.05" "/src").outcome = .ok ∧
    fsEmpty.marker = none ∧
    (run c1Env fsEmpty "nixos-24.05" "/src").fs.marker = some "24.05.1234" ∧
    (run c1Env fsEmpty "nixos-24.05" "/src").fs.primaryDb =
      some ⟨["pkgs", "meta"], ["attributes", "metaattributes", "pnames"],
            [], metaRowsOf fooManifest, []⟩ ∧
    pkgsRowsOf fooManifest ≠ [] := by
  refine ⟨rfl, rfl, rfl, rfl, rfl, fun h => ?_⟩
  exact absurd (congrArg List.length h) (by decide)

/-- The versions-database phase never touches the primary database: its
trace is exactly what it was given. -/
theorem buildVersions_dbTrace (env : Env) (fs : FS) (canonical srcdir : String)
    (evs : List Event) (trace : List (Option Db)) :
    (buildVersions env fs canonical srcdir evs trace).dbTrace = trace := by
  unfold buildVersions
  dsimp only
  repeat' split
  all_goals rfl

/-- A database whose three row lists are each empty or exactly the
manifest's rows draws only on that manifest. -/
theorem fromManifest_of_rows (m : Manifest) (d : Db)
    (h1 : d.pkgsRows = [] ∨ d.pkgsRows = pkgsRowsOf m)
    (h2 : d.metaRows = [] ∨ d.metaRows = metaRowsOf m)
    (h3 : d.verRows = [] ∨ d.verRows = verRowsOf m) :
    fromManifest m (some d) := by
  refine ⟨?_, ?_, ?_⟩
  · rcases h1 with h | h <;> rw [h]
    · exact List.nil_subset _
    · exact List.Subset.refl _
  · rcases h2 with h | h <;> rw [h]
    · exact List.nil_subset _
    · exact List.Subset.refl _
  · rcases h3 with h | h <;> rw [h]
    · exact List.nil_subset _
    · exact List.Subset.refl _

/-- Every state the primary database file passes through during the
rebuild phase is either one of the states already recorded or a state
drawing only on the freshly fetched manifest. -/
theorem buildDbs_dbTrace (env : Env) (fs1 : FS) (canonical srcdir : String)
    (evs : List Event) (trace : List (Option Db)) :
    ∀ d ∈ (buildDbs env fs1 canonical srcdir evs trace).dbTrace,
      d ∈ trace ∨ fromManifest env.manifest d := by
  intro d hd
  unfold buildDbs at hd
  dsimp only at hd
  have hddl : execDdlList (dbFile srcdir) (createDatabase none) primaryDdl =
      ([.sqlExec (dbFile srcdir) (.table "pkgs"), .sqlExec (dbFile srcdir) (.table "meta"),
        .sqlExec (dbFile srcdir) (.index "attributes"),
        .sqlExec (dbFile srcdir) (.index "metaattributes"),
        .sqlExec (dbFile srcdir) (.index "pnames")], primarySchemaDb, none) := rfl
  by_cases hrem : fs1.primaryDb.isSome = true
  · simp only [hrem, eq_self_iff_true, if_true] at hd
    rw [hddl] at hd
    dsimp only at hd
    by_cases hp : env.parseOk = true
    · simp only [hp, eq_self_iff_true, if_true] at hd
      rcases himp0 : runImport (env.importBehavior 0) with e0 | ok0 <;>
        rw [himp0] at hd <;> dsimp only at hd
      · simp only [List.mem_append, List.mem_singleton] at hd
        rcases hd with ((hd | rfl) | rfl) | rfl
        · exact .inl hd
        · exact .inr trivial
        · exact .inr (fromManifest_of_rows _ _ (.inl rfl) (.inl rfl) (.inl rfl))
        · exact .inr (fromManifest_of_rows _ _ (.inl rfl) (.inl rfl) (.inl rfl))
      · rcases himp1 : runImport (env.importBehavior 1) with e1 | ok1 <;>
          rw [himp1] at hd <;> dsimp only at hd
        · simp only [List.mem_append, List.mem_singleton] at hd
          rcases hd with (((hd | rfl) | rfl) | rfl) | rfl
          · exact .inl hd
          · exact .inr trivial
          · exact .inr (fromManifest_of_rows _ _ (.inl rfl) (.inl rfl) (.inl rfl))
          · exact .inr (fromManifest_of_rows _ _ (.inl rfl) (.inl rfl) (.inl rfl))
          · refine .inr (fromManifest_of_rows _ _ ?_ ?_ ?_) <;>
              cases ok0 <;> simp [primarySchemaDb]
        · rw [buildVersions_dbTrace] at hd
          simp only [List.mem_append, List.mem_singleton] at hd
          rcases hd with ((((hd | rfl) | rfl) | rfl) | rfl) | rfl
          · exact .inl hd
          · exact .inr trivial
          · exact .inr (fromManifest_of_rows _ _ (.inl rfl) (.inl rfl) (.inl rfl))
          · exact .inr (fromManifest_of_rows _ _ (.inl rfl) (.inl rfl) (.inl rfl))
          · refine .inr (fromManifest_of_rows _ _ ?_ ?_ ?_) <;>
              cases ok0 <;> simp [primarySchemaDb]
          · refine .inr (fromManifest_of_rows _ _ ?_ ?_ ?_) <;>
              cases ok0 <;> cases ok1 <;> simp [primarySchemaDb]
    · rw [if_neg hp] at hd
      simp only [List.mem_append, List.mem_singleton] at hd
      rcases hd with ((hd | rfl) | rfl) | rfl
      · exact .inl hd
      · exact .inr trivial
      · exact .inr (fromManifest_of_rows _ _ (.inl rfl) (.inl rfl) (.inl rfl))
      · exact .inr (fromManifest_of_rows _ _ (.inl rfl) (.inl rfl) (.inl rfl))
  · have hrem2 : fs1.primaryDb = none := by
      cases h : fs1.primaryDb
      · rfl
      · rw [h] at hrem; simp at hrem
    simp only [hrem2, Option.isSome_none, Bool.false_eq_true, if_false] at hd
    rw [hddl] at hd
    dsimp only at hd
    by_cases hp : env.parseOk = true
    · simp only [hp, eq_self_iff_true, if_true] at hd
      rcases himp0 : runImport (env.importBehavior 0) with e0 | ok0 <;>
        rw [himp0] at hd <;> dsimp only at hd
      · simp only [List.mem_append, List.mem_singleton] at hd
        rcases hd with (hd | rfl) | rfl
        · exact .inl hd
        · exact .inr (fromManifest_of_rows _ _ (.inl rfl) (.inl rfl) (.inl rfl))
        · exact .inr (fromManifest_of_rows _ _ (.inl rfl) (.inl rfl) (.inl rfl))
      · rcases himp1 : runImport (env.importBehavior 1) with e1 | ok1 <;>
          rw [himp1] at hd <;> dsimp only at hd
        · simp only [List.mem_append, List.mem_singleton] at hd
          rcases hd with ((hd | rfl) | rfl) | rfl
          · exact .inl hd
          · exact .inr (fromManifest_of_rows _ _ (.inl rfl) (.inl rfl) (.inl rfl))
          · exact .inr (fromManifest_of_rows _ _ (.inl rfl) (.inl rfl) (.inl rfl))
          · refine .inr (fromManifest_of_rows _ _ ?_ ?_ ?_) <;>
              cases ok0 <;> simp [primarySchemaDb]
        · rw [buildVersions_dbTrace] at hd
          simp only [List.mem_append, List.mem_singleton] at hd
          rcases hd with (((hd | rfl) | rfl) | rfl) | rfl
          · exact .inl hd
          · exact .inr (fromManifest_of_rows _ _ (.inl rfl) (.inl rfl) (.inl rfl))
          · exact .inr (fromManifest_of_rows _ _ (.inl rfl) (.inl rfl) (.inl rfl))
          · refine .inr (fromManifest_of_rows _ _ ?_ ?_ ?_) <;>
              cases ok0 <;> simp [primarySchemaDb]
          · refine .inr (fromManifest_of_rows _ _ ?_ ?_ ?_) <;>
              cases ok0 <;> cases ok1 <;> simp [primarySchemaDb]
    · rw [if_neg hp] at hd
      simp only [List.mem_append, List.mem_singleton] at hd
      rcases hd with (hd | rfl) | rfl
      · exact .inl hd
      · exact .inr (fromManifest_of_rows _ _ (.inl rfl) (.inl rfl) (.inl rfl))
      · exact .inr (fromManifest_of_rows _ _ (.inl rfl) (.inl rfl) (.inl rfl))

/-- C2 (amended): the primary database file never holds a mixture of
prior and new data: every state it passes through — observed during or
between runs — is either the initial (prior-snapshot) state or a state
whose rows all come from the freshly fetched manifest (absent, empty,
partially built, or the complete new snapshot). A state that is neither
the complete prior nor the complete new snapshot does occur mid-run (see
the counterexample), but it is never a mixture. -/
theorem c2_no_mixture (env : Env) (fs0 : FS) (version srcdir : String) :
    ∀ d ∈ (run env fs0 version srcdir).dbTrace,
      d = fs0.primaryDb ∨ fromManifest env.manifest d := by
  intro d hd
  unfold run at hd
  rcases hres : resolveVersion env.net version with ⟨evs, r⟩
  rw [hres] at hd
  rcases r with e | la
  · dsimp only at hd
    rcases List.mem_singleton.1 hd with rfl
    exact .inl rfl
  · dsimp only at hd
    split at hd
    · rcases List.mem_singleton.1 hd with rfl
      exact .inl (afterDir_primaryDb fs0)
    · rcases hnet : env.net (manifestUrl la.2) with _ | ⟨b, segs⟩
      · rw [hnet] at hd
        dsimp only at hd
        rcases List.mem_singleton.1 hd with rfl
        exact .inl (afterDir_primaryDb fs0)
      · rw [hnet] at hd
        cases b
        · dsimp only at hd
          rcases List.mem_singleton.1 hd with rfl
          exact .inl (afterDir_primaryDb fs0)
        · dsimp only at hd
          rcases buildDbs_dbTrace env (afterDir fs0) (stripVer la.1) srcdir _ _ d hd with h | h
          · rcases List.mem_singleton.1 h with rfl
            exact .inl (afterDir_primaryDb fs0)
          · exact .inr h

/-- C2 witness: at an observation point of a concrete run (right after the
delete step) the primary database file is absent; the no-mixture theorem
applies to it. -/
theorem c2_witness :
    (none : Option Db) = c2FS.primaryDb ∨ fromManifest happyEnv.manifest none :=
  c2_no_mixture happyEnv c2FS "nixos-24.05" "/src" none
    (List.Mem.tail _ (List.Mem.head _))

/-- C2 counterexample: a fully successful refresh over a complete prior
snapshot passes through an observation point (right after the delete step)
at which the primary database file is absent — neither the complete prior
snapshot nor the complete new snapshot, refuting the claim as stated. -/
theorem c2_counterexample :
    c2FS.primaryDb = some (completePrimaryDb barManifest) ∧
    (run happyEnv c2FS "nixos-24.05" "/src").outcome = .ok ∧
    (run happyEnv c2FS "nixos-24.05" "/src").fs.primaryDb =
      some (completePrimaryDb fooManifest) ∧
    (none : Option Db) ∈ (run happyEnv c2FS "nixos-24.05" "/src").dbTrace ∧
    (∀ m : Manifest, (none : Option Db) ≠ some (completePrimaryDb m)) :=
  ⟨rfl, rfl, rfl, List.Mem.tail _ (List.Mem.head _),
   fun _ h => Option.noConfusion h⟩

/-- C10: the failing input. On the filesystem state a prior successful run
leaves behind (stale marker, prior primary database, prior versions
database) and with everything else succeeding, the run does NOT delete the
existing versions database — the event log has no remove of
`nixpkgs_versions.db` — and the versions step FAILS (`CREATE TABLE "pkgs"`
on the still-populated old file), aborting the run with a load error after
the primary database was already rebuilt and before the marker write. -/
theorem c10_versions_db_never_deleted :
    c10FS.versionsDb = some (completeVersionsDb barManifest) ∧
    (run happyEnv c10FS "nixos-24.05" "/src").outcome = .err .loadFailed ∧
    (run happyEnv c10FS "nixos-24.05" "/src").fs.versionsDb =
      some (completeVersionsDb barManifest) ∧
    (run happyEnv c10FS "nixos-24.05" "/src").fs.marker = some "old" ∧
    (run happyEnv c10FS "nixos-24.05" "/src").fs.primaryDb =
      some (completePrimaryDb fooManifest) ∧
    (run happyEnv c10FS "nixos-24.05" "/src").events =
      [.netGet (channelsUrl "nixos-24.05"),
       .netGet (manifestUrl "nixos-24.05"),
       .dbRemove (dbFile "/src"),
       .dbCreate (dbFile "/src"),
       .sqlExec (dbFile "/src") (.table "pkgs"),
       .sqlExec (dbFile "/src") (.table "meta"),
       .sqlExec (dbFile "/src") (.index "attributes"),
       .sqlExec (dbFile "/src") (.index "metaattributes"),
       .sqlExec (dbFile "/src") (.index "pnames"),
       .spawnImport (dbFile "/src") "pkgs",
       .spawnImport (dbFile "/src") "meta",
       .dbCreate (versionsDbFile "/src"),
       .sqlExec (versionsDbFile "/src") (.table "pkgs")] :=
  ⟨rfl, rfl, rfl, rfl, rfl, rfl⟩
